import Mathlib

/-!
Formal model of the end-to-end financial reconciliation pipeline
(`src/data_cleaning/clean_data.py` and
`src/data_reconciliation/reconcile_data_sql.py`): field normalization,
multi-format temporal parsing, the four SQL reconciliation queries, the
result-assembler type-stabilization pass, and the persistence (sink)
semantics.  Machine-checked theorems settle the specification's testable
properties against these definitions.
-/

/-! ## Field normalizer (`clean_data.py`, per-column coercions) -/

/-- ASCII whitespace, the characters removed by Python's `str.strip()`. -/
def isSpaceChar (c : Char) : Bool :=
  c = ' ' ∨ c = '\t' ∨ c = '\n' ∨ c = '\r' ∨ c.toNat = 11 ∨ c.toNat = 12

/-- Python's `str.strip()`: drop leading and trailing whitespace. -/
def pyStrip (s : String) : String :=
  String.mk (((s.data.dropWhile isSpaceChar).reverse.dropWhile isSpaceChar).reverse)

/-- ASCII upper-casing of one character (`str.upper()`). -/
def upperChar (c : Char) : Char :=
  if 97 ≤ c.toNat ∧ c.toNat ≤ 122 then Char.ofNat (c.toNat - 32) else c

/-- ASCII lower-casing of one character (`str.lower()`). -/
def lowerChar (c : Char) : Char :=
  if 65 ≤ c.toNat ∧ c.toNat ≤ 90 then Char.ofNat (c.toNat + 32) else c

/-- Python's `str.upper()` over the pipeline's ASCII data. -/
def pyUpper (s : String) : String :=
  String.mk (s.data.map upperChar)

/-- Python's `str.lower()` over the pipeline's ASCII data. -/
def pyLower (s : String) : String :=
  String.mk (s.data.map lowerChar)

/-- Value of a run of decimal digits, most significant first. -/
def digitsToNat (cs : List Char) : Nat :=
  cs.foldl (fun a c => a * 10 + (c.toNat - 48)) 0

/-- Models `pandas.to_numeric(errors='coerce')` on one cell: parses an
optional sign, integer digits and an optional fractional part as an exact
rational; any other shape (including the empty string) yields `none`
(the NaN result) instead of raising.  Exponent notation is outside the
data produced by this pipeline and is not modelled. -/
def parseRat (s : String) : Option Rat :=
  let cs := (pyStrip s).data
  let signed : Bool × List Char :=
    match cs with
    | '-' :: r => (true, r)
    | '+' :: r => (false, r)
    | r => (false, r)
  let intDigits := signed.2.takeWhile Char.isDigit
  let rest := signed.2.dropWhile Char.isDigit
  let build : Nat → Nat → Nat → Option Rat := fun ip fp k =>
    let mag : Rat := (ip : Rat) + (fp : Rat) / ((10 : Rat) ^ k)
    some (if signed.1 then -mag else mag)
  match rest with
  | [] =>
    if intDigits.isEmpty then none
    else build (digitsToNat intDigits) 0 0
  | '.' :: frac =>
    let fracDigits := frac.takeWhile Char.isDigit
    if (frac.dropWhile Char.isDigit).isEmpty then
      if intDigits.isEmpty && fracDigits.isEmpty then none
      else build (digitsToNat intDigits) (digitsToNat fracDigits) fracDigits.length
    else none
  | _ => none

/-- Models `.str.strip().str.upper().str.replace(r'[^a-zA-Z]', '', regex=True)`
applied to a currency code (lines 148 and 163 of `clean_data.py`). -/
def cleanCurrency (s : String) : String :=
  String.mk ((pyUpper (pyStrip s)).data.filter Char.isAlpha)

/-- Models `.str.strip().str.lower()` (status, transaction_type,
payment_method columns). -/
def cleanLowerText (s : String) : String :=
  pyLower (pyStrip s)

/-! ## Temporal parser (`parse_datetime`, `clean_data.py` lines 72-88)

Each of the five `strptime`-style format patterns is modelled as a
parser over the character list of the raw string; a pattern succeeds only
if it consumes the whole string, exactly as `pd.to_datetime(...,
format=fmt)` requires.  A successful parse is converted to a UTC instant
represented as seconds since the Unix epoch (`utc=True`). -/

/-- Parse exactly `n` decimal digits, accumulating into `acc`. -/
def parseNDigits : Nat → Nat → List Char → Option (Nat × List Char)
  | 0, acc, cs => some (acc, cs)
  | k + 1, acc, cs =>
    match cs with
    | [] => none
    | c :: rest =>
      if c.isDigit then parseNDigits k (acc * 10 + (c.toNat - 48)) rest
      else none

/-- Parse a one- or two-digit field constrained to `[lo, hi]`, preferring
the two-digit reading when it is in range (the behaviour of the
`strptime` field regexes such as `1[0-2]|0[1-9]|[1-9]` for `%m`). -/
def parse1or2 (lo hi : Nat) : List Char → Option (Nat × List Char)
  | c1 :: c2 :: rest =>
    if c1.isDigit then
      if c2.isDigit then
        let v2 := (c1.toNat - 48) * 10 + (c2.toNat - 48)
        if lo ≤ v2 ∧ v2 ≤ hi then some (v2, rest)
        else
          let v1 := c1.toNat - 48
          if lo ≤ v1 ∧ v1 ≤ hi then some (v1, c2 :: rest) else none
      else
        let v1 := c1.toNat - 48
        if lo ≤ v1 ∧ v1 ≤ hi then some (v1, c2 :: rest) else none
    else none
  | [c1] =>
    if c1.isDigit then
      let v1 := c1.toNat - 48
      if lo ≤ v1 ∧ v1 ≤ hi then some (v1, []) else none
    else none
  | [] => none

/-- Consume one expected literal character. -/
def lit (c : Char) : List Char → Option (List Char)
  | x :: rest => if x = c then some rest else none
  | [] => none

/-- Drop a single optional colon (the `:?` of the `%z` regex). -/
def dropColonOpt (cs : List Char) : List Char :=
  match cs with
  | ':' :: r => r
  | _ => cs

/-- Optional seconds component of a UTC offset (`(:?\d\d)?`). -/
def offsetSeconds (cs : List Char) : Nat × List Char :=
  match parseNDigits 2 0 (dropColonOpt cs) with
  | some (s, r) => (s, r)
  | none => (0, cs)

/-- Models the `%z` directive: `Z` (UTC) or a signed `±HH[:]MM[[:]SS]`
offset, returned in seconds. -/
def parseOffset : List Char → Option (Int × List Char)
  | 'Z' :: rest => some (0, rest)
  | c :: rest =>
    if c = '+' ∨ c = '-' then
      match parseNDigits 2 0 rest with
      | some (hh, r1) =>
        match parseNDigits 2 0 (dropColonOpt r1) with
        | some (mm, r2) =>
          let sp := offsetSeconds r2
          let total : Int := ((hh * 3600 + mm * 60 + sp.1 : Nat) : Int)
          some (if c = '-' then -total else total, sp.2)
        | none => none
      | none => none
    else none
  | [] => none

/-- Days in a month of the (proleptic Gregorian) calendar. -/
def daysInMonth (y m : Nat) : Nat :=
  if m = 2 then
    if y % 4 = 0 ∧ (y % 100 ≠ 0 ∨ y % 400 = 0) then 29 else 28
  else if m = 4 ∨ m = 6 ∨ m = 9 ∨ m = 11 then 30
  else 31

/-- Days from 1970-01-01 to the given civil date (Gregorian), negative for
earlier dates. -/
def daysFromCivil (y m d : Nat) : Int :=
  let ys := if m ≤ 2 then y - 1 else y
  let era := ys / 400
  let yoe := ys % 400
  let mp := (m + 9) % 12
  let doy := (153 * mp + 2) / 5 + d - 1
  let doe := yoe * 365 + yoe / 4 - yoe / 100 + doy
  (era : Int) * 146097 + (doe : Int) - 719468

/-- UTC instant (seconds since the Unix epoch) of a civil date-time. -/
def utcInstant (y m d hh mi ss : Nat) : Int :=
  daysFromCivil y m d * 86400 + ((hh * 3600 + mi * 60 + ss : Nat) : Int)

/-- Validate field ranges (as the `datetime` constructor does) and build
the UTC instant, subtracting the parsed offset. -/
def buildUTC (y m d hh mi ss : Nat) (offset : Int) : Option Int :=
  if 1 ≤ y ∧ 1 ≤ m ∧ m ≤ 12 ∧ 1 ≤ d ∧ d ≤ daysInMonth y m ∧
      hh ≤ 23 ∧ mi ≤ 59 ∧ ss ≤ 59 then
    some (utcInstant y m d hh mi ss - offset)
  else none

/-- Interpret a 12-hour clock hour together with the `%p` marker. -/
def hour24 (isPm : Bool) (ih : Nat) : Nat :=
  if isPm then (if ih = 12 then 12 else ih + 12)
  else (if ih = 12 then 0 else ih)

/-- The `%p` directive: `AM`/`PM`, case-insensitively. -/
def parseAmPm : List Char → Option (Bool × List Char)
  | p1 :: p2 :: rest =>
    if (p1 = 'P' ∨ p1 = 'p') ∧ (p2 = 'M' ∨ p2 = 'm') then some (true, rest)
    else if (p1 = 'A' ∨ p1 = 'a') ∧ (p2 = 'M' ∨ p2 = 'm') then some (false, rest)
    else none
  | _ => none

/-- The `HH:MM:SS` tail shared by several formats, ended by a
sub-parser for whatever follows the seconds field. -/
def parseHms (after : List Char → Nat → Nat → Nat → Option Int)
    (cs : List Char) : Option Int :=
  match parse1or2 0 23 cs with
  | none => none
  | some (hh, cs) =>
  match lit ':' cs with
  | none => none
  | some cs =>
  match parse1or2 0 59 cs with
  | none => none
  | some (mi, cs) =>
  match lit ':' cs with
  | none => none
  | some cs =>
  match parse1or2 0 59 cs with
  | none => none
  | some (ss, cs) => after cs hh mi ss

/-- The `%Y-%m-%d` prefix shared by several formats. -/
def parseYmdDashes (after : List Char → Nat → Nat → Nat → Option Int)
    (cs : List Char) : Option Int :=
  match parseNDigits 4 0 cs with
  | none => none
  | some (y, cs) =>
  match lit '-' cs with
  | none => none
  | some cs =>
  match parse1or2 1 12 cs with
  | none => none
  | some (mo, cs) =>
  match lit '-' cs with
  | none => none
  | some cs =>
  match parse1or2 1 31 cs with
  | none => none
  | some (d, cs) => after cs y mo d

/-- Format `"%Y-%m-%dT%H:%M:%S%z"` (ISO-8601 with offset). -/
def fmtIsoOffset (cs : List Char) : Option Int :=
  parseYmdDashes (fun cs y mo d =>
    match lit 'T' cs with
    | none => none
    | some cs =>
      parseHms (fun cs hh mi ss =>
        match parseOffset cs with
        | none => none
        | some (off, cs) =>
          if cs.isEmpty then buildUTC y mo d hh mi ss off else none) cs) cs

/-- Format `"%m/%d/%Y %I:%M:%S %p"` (US month/day/year, 12-hour clock);
`utc=True` localizes the naive result to UTC. -/
def fmtUs12h (cs : List Char) : Option Int :=
  match parse1or2 1 12 cs with
  | none => none
  | some (mo, cs) =>
  match lit '/' cs with
  | none => none
  | some cs =>
  match parse1or2 1 31 cs with
  | none => none
  | some (d, cs) =>
  match lit '/' cs with
  | none => none
  | some cs =>
  match parseNDigits 4 0 cs with
  | none => none
  | some (y, cs) =>
  match lit ' ' cs with
  | none => none
  | some cs =>
  match parse1or2 1 12 cs with
  | none => none
  | some (ih, cs) =>
  match lit ':' cs with
  | none => none
  | some cs =>
  match parse1or2 0 59 cs with
  | none => none
  | some (mi, cs) =>
  match lit ':' cs with
  | none => none
  | some cs =>
  match parse1or2 0 59 cs with
  | none => none
  | some (ss, cs) =>
  match lit ' ' cs with
  | none => none
  | some cs =>
  match parseAmPm cs with
  | none => none
  | some (isPm, cs) =>
    if cs.isEmpty then buildUTC y mo d (hour24 isPm ih) mi ss 0 else none

/-- Format `"%Y-%m-%d %H:%M:%S"` (ISO without offset, assumed UTC). -/
def fmtIsoNoOffset (cs : List Char) : Option Int :=
  parseYmdDashes (fun cs y mo d =>
    match lit ' ' cs with
    | none => none
    | some cs =>
      parseHms (fun cs hh mi ss =>
        if cs.isEmpty then buildUTC y mo d hh mi ss 0 else none) cs) cs

/-- Format `"%Y%m%dT%H%M%SZ"` (compact, `Z` is a literal). -/
def fmtCompact (cs : List Char) : Option Int :=
  match parseNDigits 4 0 cs with
  | none => none
  | some (y, cs) =>
  match parse1or2 1 12 cs with
  | none => none
  | some (mo, cs) =>
  match parse1or2 1 31 cs with
  | none => none
  | some (d, cs) =>
  match lit 'T' cs with
  | none => none
  | some cs =>
  match parse1or2 0 23 cs with
  | none => none
  | some (hh, cs) =>
  match parse1or2 0 59 cs with
  | none => none
  | some (mi, cs) =>
  match parse1or2 0 59 cs with
  | none => none
  | some (ss, cs) =>
  match lit 'Z' cs with
  | none => none
  | some cs =>
    if cs.isEmpty then buildUTC y mo d hh mi ss 0 else none

/-- Format `"%Y-%m-%d"` (date only, midnight UTC). -/
def fmtDateOnly (cs : List Char) : Option Int :=
  parseYmdDashes (fun cs y mo d =>
    if cs.isEmpty then buildUTC y mo d 0 0 0 0 else none) cs

/-- The declared format list of `parse_datetime`, in source order. -/
def datetimeFormats : List (List Char → Option Int) :=
  [fmtIsoOffset, fmtUs12h, fmtIsoNoOffset, fmtCompact, fmtDateOnly]

/-- The `for fmt in formats: try ... except ValueError: continue` loop:
first successful format wins. -/
def tryFormats : List (List Char → Option Int) → List Char → Option Int
  | [], _ => none
  | f :: fs, cs =>
    match f cs with
    | some t => some t
    | none => tryFormats fs cs

/-- Models `parse_datetime` (`clean_data.py` lines 72-88): a missing cell
(`pd.isna`) returns `none` immediately; otherwise the five formats are
attempted in declared order and the first success is returned as a UTC
instant; if all fail, `none`. -/
def parse_datetime (v : Option String) : Option Int :=
  match v with
  | none => none
  | some s => tryFormats datetimeFormats s.data

/-! ## Canonical data model and the canonicalization pipeline

Raw cells are modelled as `Option String` (a missing CSV cell is `none`,
which every pandas `.str` accessor and `parse_datetime` propagate).
Cleaned amounts are exact rationals (`pd.to_numeric(errors='coerce')`),
cleaned timestamps are UTC instants. -/

/-- One raw row of `grab_transactions_{date}.csv`, column order as in the
`SELECT` of `clean_data_for_date` (line 142). -/
structure RawGrabRow where
  transaction_id : Option String
  grab_account_id : Option String
  transaction_datetime : Option String
  transaction_type : Option String
  amount : Option String
  currency_code : Option String
  status : Option String
  partner_name : Option String
  payment_method : Option String
  created_at : Option String
  updated_at : Option String
deriving DecidableEq

/-- One raw row of `partner_transactions_{date}.csv` (line 157). -/
structure RawPartnerRow where
  partner_transaction_id : Option String
  grab_transaction_id : Option String
  grab_account_id : Option String
  transaction_datetime : Option String
  transaction_type : Option String
  amount : Option String
  currency_code : Option String
  status : Option String
  payment_method : Option String
  created_at : Option String
  updated_at : Option String
  partner_name : Option String
deriving DecidableEq

/-- One raw row of `accounts_{date}.csv` (line 132). -/
structure RawAccountRow where
  grab_account_id : Option String
  user_id : Option String
  account_type : Option String
  created_at : Option String
  updated_at : Option String
deriving DecidableEq

/-- Cleaned (canonical) grab-side transaction. -/
structure GTxn where
  transaction_id : Option String
  grab_account_id : Option String
  transaction_datetime : Option Int
  transaction_type : Option String
  amount : Option Rat
  currency_code : Option String
  status : Option String
  partner_name : Option String
  payment_method : Option String
  created_at : Option Int
  updated_at : Option Int
deriving DecidableEq

/-- Cleaned (canonical) partner-side transaction. -/
structure PTxn where
  partner_transaction_id : Option String
  grab_transaction_id : Option String
  grab_account_id : Option String
  transaction_datetime : Option Int
  transaction_type : Option String
  amount : Option Rat
  currency_code : Option String
  status : Option String
  payment_method : Option String
  created_at : Option Int
  updated_at : Option Int
  partner_name : Option String
deriving DecidableEq

/-- Cleaned account record. -/
structure AccountRec where
  grab_account_id : Option String
  user_id : Option String
  account_type : Option String
  created_at : Option Int
  updated_at : Option Int
deriving DecidableEq

/-- Per-row effect of the grab-transaction cleaning block
(`clean_data.py` lines 142-151): datetimes through `parse_datetime`,
`transaction_type`/`status`/`payment_method` stripped and lower-cased,
`amount` numerically coerced, `currency_code` sanitized, `partner_name`
stripped; the two identifier columns pass through unchanged. -/
def cleanGrabRow (r : RawGrabRow) : GTxn :=
  { transaction_id := r.transaction_id
    grab_account_id := r.grab_account_id
    transaction_datetime := parse_datetime r.transaction_datetime
    transaction_type := r.transaction_type.map cleanLowerText
    amount := r.amount.bind parseRat
    currency_code := r.currency_code.map cleanCurrency
    status := r.status.map cleanLowerText
    partner_name := r.partner_name.map pyStrip
    payment_method := r.payment_method.map cleanLowerText
    created_at := parse_datetime r.created_at
    updated_at := parse_datetime r.updated_at }

/-- Per-row effect of the partner-transaction cleaning block
(lines 157-166). -/
def cleanPartnerRow (r : RawPartnerRow) : PTxn :=
  { partner_transaction_id := r.partner_transaction_id
    grab_transaction_id := r.grab_transaction_id
    grab_account_id := r.grab_account_id
    transaction_datetime := parse_datetime r.transaction_datetime
    transaction_type := r.transaction_type.map cleanLowerText
    amount := r.amount.bind parseRat
    currency_code := r.currency_code.map cleanCurrency
    status := r.status.map cleanLowerText
    payment_method := r.payment_method.map cleanLowerText
    created_at := parse_datetime r.created_at
    updated_at := parse_datetime r.updated_at
    partner_name := r.partner_name.map pyStrip }

/-- Per-row effect of the accounts cleaning block (lines 132-136):
`user_id` stripped, `account_type` lower-cased (no strip in the source),
timestamps parsed. -/
def cleanAccountRow (r : RawAccountRow) : AccountRec :=
  { grab_account_id := r.grab_account_id
    user_id := r.user_id.map pyStrip
    account_type := r.account_type.map pyLower
    created_at := parse_datetime r.created_at
    updated_at := parse_datetime r.updated_at }

/-- The canonicalization pipeline over a whole grab dataset: the column
operations of `clean_data_for_date` are elementwise, so the dataset-level
effect is a row map. -/
def cleanGrabTransactions (rs : List RawGrabRow) : List GTxn :=
  rs.map cleanGrabRow

/-- The canonicalization pipeline over a whole partner dataset. -/
def cleanPartnerTransactions (rs : List RawPartnerRow) : List PTxn :=
  rs.map cleanPartnerRow

/-- The canonicalization pipeline over the accounts dataset. -/
def cleanAccounts (rs : List RawAccountRow) : List AccountRec :=
  rs.map cleanAccountRow

/-! ## Reconciliation engine (`reconcile_data_sql.py` lines 230-307)

The four `pandasql` queries are modelled over lists of cleaned rows with
SQL three-valued comparison semantics: `=` and `<>` are satisfied only
when both operands are non-NULL. -/

/-- SQL equality on nullable values: true only when both sides are
non-NULL and equal. -/
def sqlEqOpt {α : Type} [DecidableEq α] : Option α → Option α → Bool
  | some x, some y => decide (x = y)
  | _, _ => false

/-- SQL inequality (`<>`) on nullable values: true only when both sides
are non-NULL and different. -/
def sqlNeOpt {α : Type} [DecidableEq α] : Option α → Option α → Bool
  | some x, some y => decide (x ≠ y)
  | _, _ => false

/-- The composite join predicate of every reconciliation query:
`gt.transaction_id = pt.grab_transaction_id AND gt.grab_account_id =
pt.grab_account_id`. -/
def keyMatch (g : GTxn) (p : PTxn) : Bool :=
  sqlEqOpt g.transaction_id p.grab_transaction_id &&
  sqlEqOpt g.grab_account_id p.grab_account_id

/-- Row shape produced by `match_query`: the sixteen projected columns,
eight per side, each labelled with its origin prefix. -/
structure MatchedRow where
  grab_transaction_id : Option String
  grab_account_id : Option String
  grab_amount : Option Rat
  grab_currency_code : Option String
  grab_status : Option String
  grab_created_at : Option Int
  grab_updated_at : Option Int
  grab_transaction_datetime : Option Int
  partner_grab_transaction_id : Option String
  partner_grab_account_id : Option String
  partner_amount : Option Rat
  partner_currency_code : Option String
  partner_status : Option String
  partner_created_at : Option Int
  partner_updated_at : Option Int
  partner_transaction_datetime : Option Int
deriving DecidableEq

/-- The `SELECT` list of `match_query` applied to one joined pair. -/
def mkMatchedRow (g : GTxn) (p : PTxn) : MatchedRow :=
  { grab_transaction_id := g.transaction_id
    grab_account_id := g.grab_account_id
    grab_amount := g.amount
    grab_currency_code := g.currency_code
    grab_status := g.status
    grab_created_at := g.created_at
    grab_updated_at := g.updated_at
    grab_transaction_datetime := g.transaction_datetime
    partner_grab_transaction_id := p.grab_transaction_id
    partner_grab_account_id := p.grab_account_id
    partner_amount := p.amount
    partner_currency_code := p.currency_code
    partner_status := p.status
    partner_created_at := p.created_at
    partner_updated_at := p.updated_at
    partner_transaction_datetime := p.transaction_datetime }

/-- The joined pairs of `match_query`'s `INNER JOIN` (nested-loop order:
for each grab row, every partner row satisfying the join predicate). -/
def matchedPairs (gts : List GTxn) (pts : List PTxn) : List (GTxn × PTxn) :=
  gts.flatMap (fun g => (pts.filter (fun p => keyMatch g p)).map (fun p => (g, p)))

/-- The `matched` partition: `match_query`'s projection of each joined
pair. -/
def matched (gts : List GTxn) (pts : List PTxn) : List MatchedRow :=
  (matchedPairs gts pts).map (fun pr => mkMatchedRow pr.1 pr.2)

/-- The `WHERE` clause of `discrepancy_query` under SQL three-valued
logic: `gt.amount <> pt.amount OR gt.status <> pt.status OR
gt.currency_code <> pt.currency_code`. -/
def discrepancyPred (g : GTxn) (p : PTxn) : Bool :=
  sqlNeOpt g.amount p.amount || sqlNeOpt g.status p.status ||
  sqlNeOpt g.currency_code p.currency_code

/-- The joined pairs of `discrepancy_query`: the same `INNER JOIN` with
the discrepancy `WHERE` clause. -/
def discrepantPairs (gts : List GTxn) (pts : List PTxn) : List (GTxn × PTxn) :=
  gts.flatMap (fun g =>
    (pts.filter (fun p => keyMatch g p && discrepancyPred g p)).map (fun p => (g, p)))

/-- The `LEFT JOIN` of `grab_only_query`: each grab row paired with its
matching partner rows, or with NULL when no partner row matches. -/
def leftJoinGrab (gts : List GTxn) (pts : List PTxn) : List (GTxn × Option PTxn) :=
  gts.flatMap (fun g =>
    let ms := pts.filter (fun p => keyMatch g p)
    if ms.isEmpty then [(g, (none : Option PTxn))]
    else ms.map (fun p => (g, some p)))

/-- `grab_only_query`: the left join filtered by
`WHERE pt.grab_transaction_id IS NULL`, projecting `gt.*`. -/
def grab_only (gts : List GTxn) (pts : List PTxn) : List GTxn :=
  (leftJoinGrab gts pts).filterMap (fun gp =>
    match gp.2 with
    | none => some gp.1
    | some p => if p.grab_transaction_id.isNone then some gp.1 else none)

/-- The `LEFT JOIN` of `partner_only_query`. -/
def leftJoinPartner (pts : List PTxn) (gts : List GTxn) : List (PTxn × Option GTxn) :=
  pts.flatMap (fun p =>
    let ms := gts.filter (fun g => keyMatch g p)
    if ms.isEmpty then [(p, (none : Option GTxn))]
    else ms.map (fun g => (p, some g)))

/-- `partner_only_query`: the left join filtered by
`WHERE gt.transaction_id IS NULL`, projecting `pt.*`. -/
def partner_only (pts : List PTxn) (gts : List GTxn) : List PTxn :=
  (leftJoinPartner pts gts).filterMap (fun pg =>
    match pg.2 with
    | none => some pg.1
    | some g => if g.transaction_id.isNone then some pg.1 else none)

/-! ## Result assembler (`convert_dataframe_column_types`, lines 127-151)

A DataFrame is a list of named, dtype-tagged columns of cells.  A cell is
a float (NaN modelled by `vNull`), a string, a tz-aware instant, or
missing. -/

/-- One DataFrame cell. -/
inductive Value where
  | vNum : Rat → Value
  | vStr : String → Value
  | vDate : Int → Value
  | vNull : Value
deriving DecidableEq

/-- Column dtype tags: numeric, object (strings), tz-aware datetime,
tz-naive datetime. -/
inductive DType where
  | float : DType
  | obj : DType
  | dtUTC : DType
  | dtNaive : DType
deriving DecidableEq

/-- A named DataFrame column. -/
structure Column where
  name : String
  dtype : DType
  vals : List Value
deriving DecidableEq

/-- Substring test (Python's `needle in haystack`). -/
def strContains (hay needle : String) : Bool :=
  decide (needle.data <:+: hay.data)

/-- Cell-level `pd.to_numeric(errors='coerce')`: numbers pass through,
strings are parsed (unparseable becomes NaN), NaN stays NaN, datetimes
take their integer representation. -/
def toNumericCell : Value → Value
  | Value.vNum q => Value.vNum q
  | Value.vStr s =>
    match parseRat s with
    | some q => Value.vNum q
    | none => Value.vNull
  | Value.vDate d => Value.vNum (d : Rat)
  | Value.vNull => Value.vNull

/-- Cell-level `.astype(str)`: every cell becomes its string rendering;
in particular a missing value becomes the literal string `"nan"`. -/
def toStrCell : Value → Value
  | Value.vStr s => Value.vStr s
  | Value.vNum q => Value.vStr (toString q)
  | Value.vDate d => Value.vStr (toString d)
  | Value.vNull => Value.vStr "nan"

/-- Cell-level `pd.to_datetime(errors='coerce', utc=True)`: instants pass
through, strings are parsed (here via the pipeline's ISO repertoire),
failures and missing cells become NaT, numbers are taken as epoch
ticks. -/
def toDateCell : Value → Value
  | Value.vDate d => Value.vDate d
  | Value.vStr s =>
    match tryFormats datetimeFormats s.data with
    | some t => Value.vDate t
    | none => Value.vNull
  | Value.vNum q => Value.vDate q.floor
  | Value.vNull => Value.vNull

/-- Which `elif` branch of `convert_dataframe_column_types` a column name
selects. -/
inductive Branch where
  | amount : Branch
  | text : Branch
  | datetime : Branch
  | other : Branch
deriving DecidableEq

/-- The `if/elif` chain over the column name (lines 132-145): `amount`
columns become numeric; `status`, `currency_code`, `id` (except
`grab_account_id`), `account_id`, `name`/`type`/`method` columns become
strings; `datetime`/`created_at`/`updated_at` columns become tz-aware
datetimes. -/
def branchOf (name : String) : Branch :=
  if strContains name "amount" then Branch.amount
  else if strContains name "status" then Branch.text
  else if strContains name "currency_code" then Branch.text
  else if strContains name "id" && !(name = "grab_account_id") then Branch.text
  else if strContains name "account_id" then Branch.text
  else if strContains name "name" || strContains name "type" || strContains name "method" then Branch.text
  else if strContains name "datetime" || strContains name "created_at" || strContains name "updated_at" then Branch.datetime
  else Branch.other

/-- The per-column action of `convert_dataframe_column_types`: for a
datetime-named column already of datetime dtype the source either does
nothing (naive) or `tz_convert`s to its own timezone (identity). -/
def convertColumn (c : Column) : Column :=
  match branchOf c.name with
  | Branch.amount => { c with dtype := DType.float, vals := c.vals.map toNumericCell }
  | Branch.text => { c with dtype := DType.obj, vals := c.vals.map toStrCell }
  | Branch.datetime =>
    if c.dtype = DType.dtUTC ∨ c.dtype = DType.dtNaive then c
    else { c with dtype := DType.dtUTC, vals := c.vals.map toDateCell }
  | Branch.other => c

/-- The whole type-stabilization pass: every column is converted. -/
def convert_dataframe_column_types (df : List Column) : List Column :=
  df.map convertColumn

/-! ## Sink (`save_dataframe_to_csv`, `create_reconciled_table_if_not_exists`,
`load_dataframe_to_postgres`)

Both stores are modelled as association lists from object name
(`{partition_name}_{period_id}`) to stored rows. -/

/-- Rows currently stored under a name, if the object exists. -/
def lookupStore {α : Type} (st : List (String × List α)) (name : String) :
    Option (List α) :=
  (st.find? (fun e => e.1 == name)).map (fun e => e.2)

/-- `df.to_csv(file_path, ...)`: writing a flat file replaces any previous
contents of that path. -/
def save_dataframe_to_csv {α : Type} :
    List (String × List α) → String → List α → List (String × List α)
  | [], name, rows => [(name, rows)]
  | e :: rest, name, rows =>
    if e.1 = name then (e.1, rows) :: rest
    else e :: save_dataframe_to_csv rest name rows

/-- `CREATE TABLE IF NOT EXISTS`: an existing table is left untouched, a
missing one is created empty. -/
def create_reconciled_table_if_not_exists {α : Type} :
    List (String × List α) → String → List (String × List α)
  | [], name => [(name, [])]
  | e :: rest, name =>
    if e.1 = name then e :: rest
    else e :: create_reconciled_table_if_not_exists rest name

/-- `cursor.copy_from(...)`: a PostgreSQL `COPY` appends the rows to the
table's current contents. -/
def load_dataframe_to_postgres {α : Type} :
    List (String × List α) → String → List α → List (String × List α)
  | [], _, _ => []
  | e :: rest, name, rows =>
    if e.1 = name then (e.1, e.2 ++ rows) :: rest
    else e :: load_dataframe_to_postgres rest name rows

/-- The table-store path of `reconcile_and_export_data_for_date` for one
partition: create the table if absent, then `COPY` the rows in. -/
def storePartitionTable {α : Type}
    (st : List (String × List α)) (name : String) (rows : List α) :
    List (String × List α) :=
  load_dataframe_to_postgres (create_reconciled_table_if_not_exists st name) name rows

/-! ## Example records used by witnesses and counterexamples -/

/-- A cleaned grab transaction (the spec's end-to-end scenario row). -/
def gEx : GTxn :=
  { transaction_id := some "T1"
    grab_account_id := some "A1"
    transaction_datetime := some 1715940000
    transaction_type := some "credit"
    amount := some 100
    currency_code := some "PHP"
    status := some "success"
    partner_name := some "PartnerX"
    payment_method := some "card"
    created_at := none
    updated_at := none }

/-- The matching partner transaction, with a 105.00 amount. -/
def pEx : PTxn :=
  { partner_transaction_id := some "P1"
    grab_transaction_id := some "T1"
    grab_account_id := some "A1"
    transaction_datetime := some 1715940000
    transaction_type := some "credit"
    amount := some 105
    currency_code := some "PHP"
    status := some "success"
    payment_method := some "card"
    created_at := none
    updated_at := none
    partner_name := some "PartnerX" }

/-- Like `gEx` but with a NULL amount (an upstream parse failure). -/
def gNullAmt : GTxn := { gEx with amount := none }

/-- Like `gEx` but with a different transaction type. -/
def gTypeB : GTxn := { gEx with transaction_type := some "debit" }

/-- A raw grab row whose amount cell is unparseable. -/
def rawBadAmount : RawGrabRow :=
  { transaction_id := some "T9"
    grab_account_id := some "A9"
    transaction_datetime := some "2024-05-16 08:00:00"
    transaction_type := some " Credit "
    amount := some "not-a-number"
    currency_code := some " php "
    status := some "SUCCESS"
    partner_name := some " PartnerX "
    payment_method := some "card"
    created_at := none
    updated_at := none }

/-- A status column holding missing values, for the assembler claims. -/
def statusColumn : Column :=
  { name := "grab_status"
    dtype := DType.obj
    vals := [Value.vNull, Value.vStr "success", Value.vNull] }

/-! ## Theorems for the claims -/

/-- C4: the canonicalization pipeline is total and row-count preserving —
for every raw dataset it returns exactly one canonical record per input
row (each cleaning function is a total Lean function, so no input can
raise), and an unparseable amount cell is coerced to null rather than
dropping the record. -/
theorem canonicalization_total (ras : List RawAccountRow)
    (rgs : List RawGrabRow) (rps : List RawPartnerRow) :
    (cleanAccounts ras).length = ras.length ∧
    (cleanGrabTransactions rgs).length = rgs.length ∧
    (cleanPartnerTransactions rps).length = rps.length ∧
    (cleanGrabRow rawBadAmount).amount = none := by
  refine ⟨?_, ?_, ?_, ?_⟩
  · simp [cleanAccounts]
  · simp [cleanGrabTransactions]
  · simp [cleanPartnerTransactions]
  · decide

/-- C5: the temporal parser tries its five formats in declared order and
returns the first successful parse in UTC; the strings
`"2024-05-17T10:00:00Z"` and `"2024-05-17 10:00:00"` both yield the UTC
instant 2024-05-17T10:00:00 (epoch second 1715940000), the first via the
ISO-with-offset pattern and the second via the ISO-without-offset
pattern assumed UTC. -/
theorem temporal_fallback :
    parse_datetime (some "2024-05-17T10:00:00Z") = some (utcInstant 2024 5 17 10 0 0) ∧
    parse_datetime (some "2024-05-17 10:00:00") = some (utcInstant 2024 5 17 10 0 0) ∧
    fmtIsoOffset ("2024-05-17T10:00:00Z").data = some (utcInstant 2024 5 17 10 0 0) ∧
    utcInstant 2024 5 17 10 0 0 = 1715940000 := by
  refine ⟨?_, ?_, ?_, ?_⟩ <;> decide

/-- C6: currency normalization trims, upper-cases, and strips every
non-alphabetic character: `" php "` and `"P-H-P"` both normalize to
`"PHP"` (and digits are removed as well). -/
theorem currency_sanitization :
    cleanCurrency " php " = "PHP" ∧ cleanCurrency "P-H-P" = "PHP" ∧
    cleanCurrency " a1b2 " = "AB" := by
  refine ⟨?_, ?_, ?_⟩ <;> decide

/-- Cell-level numeric coercion is idempotent. -/
theorem toNumericCell_idem (v : Value) :
    toNumericCell (toNumericCell v) = toNumericCell v := by
  cases v with
  | vStr s => cases h : parseRat s <;> simp [toNumericCell, h]
  | _ => simp [toNumericCell]

/-- Cell-level string casting is idempotent. -/
theorem toStrCell_idem (v : Value) :
    toStrCell (toStrCell v) = toStrCell v := by
  cases v <;> simp [toStrCell]

/-- One column-conversion pass is idempotent. -/
theorem convertColumn_idem (c : Column) :
    convertColumn (convertColumn c) = convertColumn c := by
  cases hb : branchOf c.name with
  | amount =>
    simp only [convertColumn, hb, List.map_map]
    exact congrArg _ (List.map_congr_left (fun v _ => toNumericCell_idem v))
  | text =>
    simp only [convertColumn, hb, List.map_map]
    exact congrArg _ (List.map_congr_left (fun v _ => toStrCell_idem v))
  | datetime =>
    by_cases hd : c.dtype = DType.dtUTC ∨ c.dtype = DType.dtNaive
    · simp [convertColumn, hb, hd]
    · simp [convertColumn, hb, hd]
  | other => simp [convertColumn, hb]

/-- C7: the Result Assembler's type-stabilization pass is idempotent —
applying `convert_dataframe_column_types` to its own output returns that
output unchanged, for every four-partition result DataFrame. -/
theorem assembler_idempotent (df : List Column) :
    convert_dataframe_column_types (convert_dataframe_column_types df) =
      convert_dataframe_column_types df := by
  simp only [convert_dataframe_column_types, List.map_map]
  exact List.map_congr_left (fun c _ => convertColumn_idem c)

/-- C10: after the type-stabilization pass, a column selected by one of
the text branches (status, currency_code, identifier, account,
name/type/method columns) holds only strings — a missing value has become
the literal string `"nan"`, so two rows that both had a missing value in
that column compare equal afterwards. -/
theorem text_columns_no_nulls (c : Column) (h : branchOf c.name = Branch.text) :
    (∀ v ∈ (convertColumn c).vals, ∃ s, v = Value.vStr s) ∧
    toStrCell Value.vNull = Value.vStr "nan" := by
  refine ⟨?_, rfl⟩
  intro v hv
  simp only [convertColumn, h, List.mem_map] at hv
  obtain ⟨w, _, rfl⟩ := hv
  cases w <;> exact ⟨_, rfl⟩

/-- Witness for C10 at a concrete status column with missing cells. -/
theorem text_columns_no_nulls_witness :
    (∀ v ∈ (convertColumn statusColumn).vals, ∃ s, v = Value.vStr s) ∧
    toStrCell Value.vNull = Value.vStr "nan" :=
  text_columns_no_nulls statusColumn (by decide)

/-! ## Sink semantics theorems -/

/-- The flat-file store always ends up holding exactly the rows written. -/
theorem lookupStore_csv {α : Type} (fs : List (String × List α))
    (name : String) (rows : List α) :
    lookupStore (save_dataframe_to_csv fs name rows) name = some rows := by
  induction fs with
  | nil => simp [save_dataframe_to_csv, lookupStore, List.find?_cons]
  | cons e rest ih =>
    by_cases h : e.1 = name
    · simp [save_dataframe_to_csv, h, lookupStore, List.find?_cons]
    · simpa [save_dataframe_to_csv, h, lookupStore, List.find?_cons] using ih

/-- `COPY` appends to whatever the table already holds. -/
theorem lookupStore_copy {α : Type} (st : List (String × List α))
    (name : String) (rows : List α) :
    lookupStore (load_dataframe_to_postgres st name rows) name =
      (lookupStore st name).map (fun v => v ++ rows) := by
  induction st with
  | nil => simp [load_dataframe_to_postgres, lookupStore, List.find?_cons]
  | cons e rest ih =>
    by_cases h : e.1 = name
    · simp [load_dataframe_to_postgres, h, lookupStore, List.find?_cons]
    · simpa [load_dataframe_to_postgres, h, lookupStore, List.find?_cons] using ih

/-- `CREATE TABLE IF NOT EXISTS` leaves existing contents and creates an
empty table otherwise. -/
theorem lookupStore_create {α : Type} (st : List (String × List α))
    (name : String) :
    lookupStore (create_reconciled_table_if_not_exists st name) name =
      some ((lookupStore st name).getD []) := by
  induction st with
  | nil => simp [create_reconciled_table_if_not_exists, lookupStore, List.find?_cons]
  | cons e rest ih =>
    by_cases h : e.1 = name
    · simp [create_reconciled_table_if_not_exists, h, lookupStore, List.find?_cons]
    · simpa [create_reconciled_table_if_not_exists, h, lookupStore, List.find?_cons] using ih

/-- A partition name of the table store and a double store of the same
rows under it. -/
def sinkName : String := "reconciled_transactions_20240516"

/-- The table-store state after storing the same single-row partition
twice under the same name. -/
def sinkTwice : List (String × List Nat) :=
  storePartitionTable (storePartitionTable [] sinkName [100]) sinkName [100]

/-- C9 counterexample: the keyed table store does not have
replace-if-exists semantics — storing a one-row partition twice under the
same `{partition_name}_{period_id}` leaves the table with the row
duplicated, not with exactly the stored rows. -/
theorem sink_overwrite_counterexample :
    lookupStore sinkTwice sinkName = some [100, 100] ∧
    lookupStore sinkTwice sinkName ≠ some [100] := by
  refine ⟨?_, ?_⟩ <;> decide

/-- C9 as amended: the flat-file export has replace-if-exists semantics,
but the keyed table store creates the table only if absent and then
appends, so after a store the table holds its previous contents followed
by the new rows. -/
theorem sink_semantics_amended {α : Type} (fs st : List (String × List α))
    (name : String) (rows : List α) :
    lookupStore (save_dataframe_to_csv fs name rows) name = some rows ∧
    lookupStore (storePartitionTable st name rows) name =
      some ((lookupStore st name).getD [] ++ rows) := by
  refine ⟨lookupStore_csv fs name rows, ?_⟩
  rw [storePartitionTable, lookupStore_copy, lookupStore_create]
  simp

/-! ## Reconciliation lemmas -/

/-- A pair is emitted by the matched inner join exactly when both rows
are present and the join predicate holds. -/
theorem mem_matchedPairs {gts : List GTxn} {pts : List PTxn}
    {g : GTxn} {p : PTxn} :
    (g, p) ∈ matchedPairs gts pts ↔ g ∈ gts ∧ p ∈ pts ∧ keyMatch g p = true := by
  simp only [matchedPairs, List.mem_flatMap, List.mem_map, List.mem_filter]
  constructor
  · rintro ⟨g1, hg1, p1, ⟨hp1, hk⟩, heq⟩
    obtain ⟨h1, h2⟩ := Prod.mk.injEq g1 p1 g p ▸ heq
    subst h1; subst h2
    exact ⟨hg1, hp1, hk⟩
  · rintro ⟨hg, hp, hk⟩
    exact ⟨g, hg, p, ⟨hp, hk⟩, rfl⟩

/-- Same characterization for the discrepancy inner join. -/
theorem mem_discrepantPairs {gts : List GTxn} {pts : List PTxn}
    {g : GTxn} {p : PTxn} :
    (g, p) ∈ discrepantPairs gts pts ↔
      g ∈ gts ∧ p ∈ pts ∧ keyMatch g p = true ∧ discrepancyPred g p = true := by
  simp only [discrepantPairs, List.mem_flatMap, List.mem_map, List.mem_filter,
    Bool.and_eq_true]
  constructor
  · rintro ⟨g1, hg1, p1, ⟨hp1, hk, hd⟩, heq⟩
    obtain ⟨h1, h2⟩ := Prod.mk.injEq g1 p1 g p ▸ heq
    subst h1; subst h2
    exact ⟨hg1, hp1, hk, hd⟩
  · rintro ⟨hg, hp, hk, hd⟩
    exact ⟨g, hg, p, ⟨hp, hk, hd⟩, rfl⟩

/-- A join match forces the partner side's join column to be non-NULL. -/
theorem keyMatch_partner_tid {g : GTxn} {p : PTxn} (h : keyMatch g p = true) :
    p.grab_transaction_id.isNone = false := by
  cases hp : p.grab_transaction_id with
  | none =>
    cases hg : g.transaction_id <;>
      simp [keyMatch, sqlEqOpt, hp, hg] at h
  | some x => rfl

/-- A join match forces the grab side's join column to be non-NULL. -/
theorem keyMatch_grab_tid {g : GTxn} {p : PTxn} (h : keyMatch g p = true) :
    g.transaction_id.isNone = false := by
  cases hg : g.transaction_id with
  | none =>
    cases hp : p.grab_transaction_id <;>
      simp [keyMatch, sqlEqOpt, hg, hp] at h
  | some x => rfl

/-- The emit function of the grab-only filter: `SELECT gt.*` guarded by
`pt.grab_transaction_id IS NULL`. -/
def grabOnlyEmit (gp : GTxn × Option PTxn) : Option GTxn :=
  match gp.2 with
  | none => some gp.1
  | some p => if p.grab_transaction_id.isNone then some gp.1 else none

/-- Rows joined to an actual key match never pass the IS NULL filter. -/
theorem grabOnlyEmit_matched_nil (g : GTxn) (ms : List PTxn)
    (hms : ∀ p ∈ ms, keyMatch g p = true) :
    (ms.map (fun p => (g, some p))).filterMap grabOnlyEmit = [] := by
  rw [List.filterMap_map, List.filterMap_eq_nil_iff]
  intro p hp
  have h2 := keyMatch_partner_tid (hms p hp)
  simp [grabOnlyEmit, h2]

/-- The grab-only query reduces to keeping exactly the grab rows with no
key match among the partner rows. -/
theorem grab_only_eq_filter (gts : List GTxn) (pts : List PTxn) :
    grab_only gts pts = gts.filter (fun g => !(pts.any (fun p => keyMatch g p))) := by
  have hdef : ∀ l, grab_only l pts = (leftJoinGrab l pts).filterMap grabOnlyEmit := by
    intro l; rfl
  induction gts with
  | nil => rfl
  | cons g rest ih =>
    rw [hdef, leftJoinGrab, List.flatMap_cons, List.filterMap_append]
    rw [← leftJoinGrab, ← hdef, ih, List.filter_cons]
    cases hE : (pts.filter (fun p => keyMatch g p)).isEmpty with
    | true =>
      have hany : pts.any (fun p => keyMatch g p) = false := by
        rw [List.any_eq_false]
        exact List.filter_eq_nil_iff.mp (List.isEmpty_iff.mp hE)
      rw [if_pos hE, hany]
      simp [grabOnlyEmit]
    | false =>
      have hne : pts.filter (fun p => keyMatch g p) ≠ [] := by
        intro hnil
        rw [hnil] at hE
        simp at hE
      have hany : pts.any (fun p => keyMatch g p) = true := by
        rw [List.any_eq_true]
        obtain ⟨p, hp⟩ := List.exists_mem_of_ne_nil _ hne
        have hmem := List.mem_filter.mp hp
        exact ⟨p, hmem.1, hmem.2⟩
      rw [if_neg (by simp [hE]), hany]
      rw [grabOnlyEmit_matched_nil g _ (fun p hp => (List.mem_filter.mp hp).2)]
      simp

/-- The emit function of the partner-only filter: `SELECT pt.*` guarded by
`gt.transaction_id IS NULL`. -/
def partnerOnlyEmit (pg : PTxn × Option GTxn) : Option PTxn :=
  match pg.2 with
  | none => some pg.1
  | some g => if g.transaction_id.isNone then some pg.1 else none

/-- Rows joined to an actual key match never pass the IS NULL filter. -/
theorem partnerOnlyEmit_matched_nil (p : PTxn) (ms : List GTxn)
    (hms : ∀ g ∈ ms, keyMatch g p = true) :
    (ms.map (fun g => (p, some g))).filterMap partnerOnlyEmit = [] := by
  rw [List.filterMap_map, List.filterMap_eq_nil_iff]
  intro g hg
  have h2 := keyMatch_grab_tid (hms g hg)
  simp [partnerOnlyEmit, h2]

/-- The partner-only query reduces to keeping exactly the partner rows
with no key match among the grab rows. -/
theorem partner_only_eq_filter (pts : List PTxn) (gts : List GTxn) :
    partner_only pts gts = pts.filter (fun p => !(gts.any (fun g => keyMatch g p))) := by
  have hdef : ∀ l, partner_only l gts = (leftJoinPartner l gts).filterMap partnerOnlyEmit := by
    intro l; rfl
  induction pts with
  | nil => rfl
  | cons p rest ih =>
    rw [hdef, leftJoinPartner, List.flatMap_cons, List.filterMap_append]
    rw [← leftJoinPartner, ← hdef, ih, List.filter_cons]
    cases hE : (gts.filter (fun g => keyMatch g p)).isEmpty with
    | true =>
      have hany : gts.any (fun g => keyMatch g p) = false := by
        rw [List.any_eq_false]
        exact List.filter_eq_nil_iff.mp (List.isEmpty_iff.mp hE)
      rw [if_pos hE, hany]
      simp [partnerOnlyEmit]
    | false =>
      have hne : gts.filter (fun g => keyMatch g p) ≠ [] := by
        intro hnil
        rw [hnil] at hE
        simp at hE
      have hany : gts.any (fun g => keyMatch g p) = true := by
        rw [List.any_eq_true]
        obtain ⟨g, hg⟩ := List.exists_mem_of_ne_nil _ hne
        have hmem := List.mem_filter.mp hg
        exact ⟨g, hmem.1, hmem.2⟩
      rw [if_neg (by simp [hE]), hany]
      rw [partnerOnlyEmit_matched_nil p _ (fun g hg => (List.mem_filter.mp hg).2)]
      simp

/-- C1: partition exhaustiveness and disjointness — every source (grab)
row appears in the matched join output iff some counterpart row shares
its `(link_id, account_id)` key under the SQL join predicate, and in the
source-only partition iff no counterpart row does, so each source row
lands in exactly one of the two; symmetrically for counterpart (partner)
rows with the counterpart-only partition. -/
theorem reconciliation_partition (gts : List GTxn) (pts : List PTxn) :
    (∀ g ∈ gts,
      ((∃ p, (g, p) ∈ matchedPairs gts pts) ↔ ∃ p ∈ pts, keyMatch g p = true) ∧
      (g ∈ grab_only gts pts ↔ ¬ ∃ p ∈ pts, keyMatch g p = true)) ∧
    (∀ p ∈ pts,
      ((∃ g, (g, p) ∈ matchedPairs gts pts) ↔ ∃ g ∈ gts, keyMatch g p = true) ∧
      (p ∈ partner_only pts gts ↔ ¬ ∃ g ∈ gts, keyMatch g p = true)) := by
  constructor
  · intro g hg
    constructor
    · constructor
      · rintro ⟨p, hp⟩
        have h := mem_matchedPairs.mp hp
        exact ⟨p, h.2.1, h.2.2⟩
      · rintro ⟨p, hp, hk⟩
        exact ⟨p, mem_matchedPairs.mpr ⟨hg, hp, hk⟩⟩
    · rw [grab_only_eq_filter, List.mem_filter]
      simp [hg, List.any_eq_true]
  · intro p hp
    constructor
    · constructor
      · rintro ⟨g, hg⟩
        have h := mem_matchedPairs.mp hg
        exact ⟨g, h.1, h.2.2⟩
      · rintro ⟨g, hg, hk⟩
        exact ⟨g, mem_matchedPairs.mpr ⟨hg, hp, hk⟩⟩
    · rw [partner_only_eq_filter, List.mem_filter]
      simp [hp, List.any_eq_true]

/-- Witness for C1: in the one-row matching scenario the source row is
emitted by the matched join and absent from the source-only partition. -/
theorem reconciliation_partition_witness :
    (∃ p, (gEx, p) ∈ matchedPairs [gEx] [pEx]) ∧ gEx ∉ grab_only [gEx] [pEx] := by
  have h := ((reconciliation_partition [gEx] [pEx]).1 gEx (by simp)).1
  have h2 := ((reconciliation_partition [gEx] [pEx]).1 gEx (by simp)).2
  constructor
  · exact h.mpr ⟨pEx, by simp, by decide⟩
  · intro hmem
    exact (h2.mp hmem) ⟨pEx, by simp, by decide⟩

/-- SQL `<>` holds exactly when both sides are non-NULL and unequal. -/
theorem sqlNeOpt_eq_true_iff {α : Type} [DecidableEq α] {a b : Option α} :
    sqlNeOpt a b = true ↔ ∃ x y, a = some x ∧ b = some y ∧ x ≠ y := by
  cases a <;> cases b <;> simp [sqlNeOpt]

/-- C2 counterexample: a joined pair whose amounts differ (NULL on the
grab side versus 105 on the partner side, statuses and currencies equal)
is emitted by the matched join but not by the discrepancy query, because
SQL `<>` never fires on a NULL operand — so "appears in discrepant iff
some field differs" is false as stated. -/
theorem discrepancy_null_counterexample :
    (gNullAmt, pEx) ∈ matchedPairs [gNullAmt] [pEx] ∧
    gNullAmt.amount ≠ pEx.amount ∧
    (gNullAmt, pEx) ∉ discrepantPairs [gNullAmt] [pEx] := by
  refine ⟨?_, ?_, ?_⟩ <;> decide

/-- C2 as amended: the discrepant partition is always a subset of the
matched partition, and a matched pair is discrepant iff at least one of
amount, status, currency_code has both sides non-NULL and unequal (a
field with a NULL on either side never marks the pair discrepant). -/
theorem discrepancy_amended (gts : List GTxn) (pts : List PTxn) :
    (∀ pr ∈ discrepantPairs gts pts, pr ∈ matchedPairs gts pts) ∧
    (∀ pr ∈ matchedPairs gts pts,
      (pr ∈ discrepantPairs gts pts ↔
        ((∃ x y, pr.1.amount = some x ∧ pr.2.amount = some y ∧ x ≠ y) ∨
         (∃ x y, pr.1.status = some x ∧ pr.2.status = some y ∧ x ≠ y) ∨
         (∃ x y, pr.1.currency_code = some x ∧ pr.2.currency_code = some y ∧ x ≠ y)))) := by
  constructor
  · rintro ⟨g, p⟩ hd
    have h := mem_discrepantPairs.mp hd
    exact mem_matchedPairs.mpr ⟨h.1, h.2.1, h.2.2.1⟩
  · rintro ⟨g, p⟩ hm
    obtain ⟨hg, hp, hk⟩ := mem_matchedPairs.mp hm
    rw [mem_discrepantPairs]
    simp only [hg, hp, hk, true_and]
    rw [discrepancyPred, Bool.or_eq_true, Bool.or_eq_true]
    rw [sqlNeOpt_eq_true_iff, sqlNeOpt_eq_true_iff, sqlNeOpt_eq_true_iff]
    rw [or_assoc]

/-- Witness for C2 as amended: the end-to-end scenario pair (100 versus
105) is matched and flagged discrepant through the amount disjunct. -/
theorem discrepancy_amended_witness :
    (gEx, pEx) ∈ discrepantPairs [gEx] [pEx] :=
  ((discrepancy_amended [gEx] [pEx]).2 (gEx, pEx) (by decide)).mpr
    (Or.inl ⟨100, 105, by decide, by decide, by decide⟩)

/-- C3 counterexample: two source rows differing only in
`transaction_type` produce identical matched rows — `match_query`'s
projection does not carry `transaction_type` (nor `payment_method` or
`partner_name`), so a matched row does not carry both sides' full field
set. -/
theorem match_projection_counterexample :
    matched [gEx, gTypeB] [pEx] = [mkMatchedRow gEx pEx, mkMatchedRow gTypeB pEx] ∧
    mkMatchedRow gEx pEx = mkMatchedRow gTypeB pEx ∧
    gEx.transaction_type ≠ gTypeB.transaction_type := by
  refine ⟨?_, ?_, ?_⟩ <;> decide

/-- C3 as amended: the matched partition emits exactly the cartesian
product of key-sharing source and counterpart rows, and each emitted row
carries the eight projected fields of each side (identifier, account,
amount, currency, status, created_at, updated_at, transaction_datetime)
labelled with its origin prefix — but not the sides' transaction_type,
payment_method, or partner_name. -/
theorem match_projection_amended (gts : List GTxn) (pts : List PTxn)
    (g : GTxn) (p : PTxn) :
    ((g, p) ∈ matchedPairs gts pts ↔ g ∈ gts ∧ p ∈ pts ∧ keyMatch g p = true) ∧
    ((mkMatchedRow g p).grab_transaction_id = g.transaction_id ∧
     (mkMatchedRow g p).grab_account_id = g.grab_account_id ∧
     (mkMatchedRow g p).grab_amount = g.amount ∧
     (mkMatchedRow g p).grab_currency_code = g.currency_code ∧
     (mkMatchedRow g p).grab_status = g.status ∧
     (mkMatchedRow g p).grab_created_at = g.created_at ∧
     (mkMatchedRow g p).grab_updated_at = g.updated_at ∧
     (mkMatchedRow g p).grab_transaction_datetime = g.transaction_datetime) ∧
    ((mkMatchedRow g p).partner_grab_transaction_id = p.grab_transaction_id ∧
     (mkMatchedRow g p).partner_grab_account_id = p.grab_account_id ∧
     (mkMatchedRow g p).partner_amount = p.amount ∧
     (mkMatchedRow g p).partner_currency_code = p.currency_code ∧
     (mkMatchedRow g p).partner_status = p.status ∧
     (mkMatchedRow g p).partner_created_at = p.created_at ∧
     (mkMatchedRow g p).partner_updated_at = p.updated_at ∧
     (mkMatchedRow g p).partner_transaction_datetime = p.transaction_datetime) := by
  refine ⟨mem_matchedPairs, ?_, ?_⟩ <;>
    exact ⟨rfl, rfl, rfl, rfl, rfl, rfl, rfl, rfl⟩

/-- Witness for C3 as amended, instantiated at the one-pair scenario. -/
theorem match_projection_amended_witness :
    (gEx, pEx) ∈ matchedPairs [gEx] [pEx] :=
  (match_projection_amended [gEx] [pEx] gEx pEx).1.mpr
    ⟨by simp, by simp, by decide⟩

/-- C8: with an empty source dataset the matched, discrepant and
source-only partitions are empty and the counterpart-only partition holds
every counterpart row; symmetrically with an empty counterpart dataset —
the engine runs and degrades gracefully, never treating emptiness as an
error. -/
theorem empty_input_degradation (gts : List GTxn) (pts : List PTxn) :
    (matchedPairs [] pts = [] ∧ discrepantPairs [] pts = [] ∧
     grab_only [] pts = [] ∧ partner_only pts [] = pts) ∧
    (matchedPairs gts [] = [] ∧ discrepantPairs gts [] = [] ∧
     grab_only gts [] = gts ∧ partner_only [] gts = []) := by
  refine ⟨⟨rfl, rfl, rfl, ?_⟩, ⟨?_, ?_, ?_, rfl⟩⟩
  · rw [partner_only_eq_filter]
    simp
  · simp [matchedPairs]
  · simp [discrepantPairs]
  · rw [grab_only_eq_filter]
    simp
